import Mathlib

/-!
Verification of the Literature-Text-Analyzer script (src/Lit_Project.py).

Strings are embedded as `List Char`.  Python `str.strip()` is `pyStrip`,
Python `str.lower()` is `lowerStr` (character-wise ASCII lowering, which is
what Python does on the ASCII range), and the Python substring test
`a in b` is decidable infix containment on character lists.

External collaborators (the OpenAI client, the console, the PDF parser)
are modelled as explicit inputs: the remote call result is an `ApiOutcome`,
the console is a stream `Nat -> List Char` of submitted lines, and the PDF
parse result is an `Except` carrying either an error message or the list
of per-page extracted texts.  The unbounded retry loop of `get_user_quote`
is given explicit fuel; running out of fuel models non-termination.
-/

namespace LitProject

/-- Whitespace characters stripped by Python `str.strip()` (ASCII range). -/
def pyIsSpace (c : Char) : Bool :=
  c = ' ' || c = '\t' || c = '\n' || c = '\x0d' || c = '\x0b' || c = '\x0c'

/-- Python `s.strip()`: drop leading then trailing whitespace. -/
def pyStrip (s : List Char) : List Char :=
  List.rdropWhile pyIsSpace (List.dropWhile pyIsSpace s)

/-- Character-wise lowering, as Python `str.lower()` acts on ASCII. -/
def lowerChar (c : Char) : Char :=
  if 'A' ≤ c ∧ c ≤ 'Z' then Char.ofNat (c.toNat + 32) else c

/-- Python `s.lower()` on our string embedding. -/
def lowerStr (s : List Char) : List Char := s.map lowerChar

/-- The match check of `main` (src/Lit_Project.py line 147):
`user_quote.lower() in pdf_text.lower()`. -/
def matchCheck (quote docText : List Char) : Bool :=
  decide (List.IsInfix (lowerStr quote) (lowerStr docText))

/-- The page-concatenation loop of `load_pdf_text`
(src/Lit_Project.py lines 46-53): each page text that is truthy
(non-empty) is appended followed by a newline; a falsy extraction
contributes nothing. -/
def loadPdfText (pages : List (List Char)) : List Char :=
  pages.foldl (fun text p => if p.isEmpty then text else text ++ p ++ ['\n']) []

/-- `get_user_quote` (src/Lit_Project.py lines 60-70) run against a
console stream `ins`, starting at submission index `i`, with recursion
fuel: strips the submission; if the result is empty it warns and recurses
on the next submission, else returns the stripped value together with the
index at which it was accepted (= the recursion depth = the number of
rejected submissions before it when started at 0). -/
def getUserQuoteRun (ins : Nat → List Char) : Nat → Nat → Option (List Char × Nat)
  | _, 0 => none
  | i, fuel + 1 =>
    if (pyStrip (ins i)).isEmpty then getUserQuoteRun ins (i + 1) fuel
    else some (pyStrip (ins i), i)

/-- Outcome of the single remote chat-completion call made by
`explain_quote_with_gpt`: success with the generated text, an
`openai.APIStatusError` carrying a status code, an `openai.APITimeoutError`,
or any other exception. -/
inductive ApiOutcome where
  | success (text : List Char)
  | apiStatusError (statusCode : Nat)
  | timeoutError
  | otherError
  deriving DecidableEq, Repr

/-- Fallback returned on `openai.APIStatusError`
(src/Lit_Project.py line 101). -/
def apiErrorFallback : List Char :=
  ("Could not generate explanation due to an API error.").data

/-- Fallback returned on `openai.APITimeoutError`
(src/Lit_Project.py line 104). -/
def timeoutFallback : List Char :=
  ("Could not generate explanation due to a timeout.").data

/-- Fallback returned on any other exception (src/Lit_Project.py line 107). -/
def unexpectedFallback : List Char :=
  ("Could not generate explanation due to an unexpected error.").data

/-- Console diagnostics printed by `explain_quote_with_gpt`. -/
inductive ExplainEvent where
  | successNote
  | apiErrorDiag (statusCode : Nat)
  | authDiag401
  | timeoutDiag
  | unexpectedDiag
  deriving DecidableEq, Repr

/-- `explain_quote_with_gpt` (src/Lit_Project.py lines 73-107) as a function
of the remote-call outcome: returns the string the Python function returns
together with the list of diagnostics it prints.  Every branch returns a
string; no exception escapes. -/
def explainQuote (o : ApiOutcome) : List Char × List ExplainEvent :=
  match o with
  | .success text => (pyStrip text, [.successNote])
  | .apiStatusError statusCode =>
      (apiErrorFallback,
        if statusCode = 401 then [.apiErrorDiag statusCode, .authDiag401]
        else [.apiErrorDiag statusCode])
  | .timeoutError => (timeoutFallback, [.timeoutDiag])
  | .otherError => (unexpectedFallback, [.unexpectedDiag])

/-- Tone buckets of `analyze_quote_nlp`. -/
inductive Tone where
  | positive
  | negative
  | neutral
  deriving DecidableEq, Repr

/-- The tone classification of `analyze_quote_nlp`
(src/Lit_Project.py lines 126-131): strict thresholds at ±0.3. -/
def classifyTone (polarity : ℚ) : Tone :=
  if polarity > 3 / 10 then .positive
  else if polarity < -(3 / 10) then .negative
  else .neutral

/-- The environment a run of the script observes: the credential from
`os.getenv`, whether the hardcoded PDF path exists, the PDF parse result
(error message or per-page extracted texts), the console stream, the
remote-call outcome, and the opaque TextBlob sentiment oracle giving
(polarity, subjectivity). -/
structure Env where
  apiKey : Option (List Char)
  fileExists : Bool
  parseResult : Except (List Char) (List (List Char))
  console : Nat → List Char
  api : ApiOutcome
  sentiment : List Char → ℚ × ℚ

/-- Observable events of a run, in program order. -/
inductive Event where
  | keyError
  | fileError
  | loadAttempt
  | readError (msg : List Char)
  | loadOk
  | matchFound
  | matchWarn
  | explainRequest (quote : List Char)
  | explainDiag (e : ExplainEvent)
  | explanationOut (text : List Char)
  | sentimentOut (polarity subjectivity : ℚ) (tone : Tone)
  | citation
  | finished
  deriving DecidableEq

/-- The module-level credential check plus `main`
(src/Lit_Project.py lines 14-20 and 134-165), as a function of the
environment.  Returns `some (exitCode, trace)`; `none` models the run not
finishing within `fuel` quote-collection attempts (in particular the
unbounded retry on an all-blank console). -/
def runProgram (env : Env) (fuel : Nat) : Option (Nat × List Event) :=
  match env.apiKey with
  | none => some (1, [Event.keyError])
  | some key =>
    if key.isEmpty then some (1, [Event.keyError])
    else if env.fileExists = false then some (1, [Event.fileError])
    else
      match env.parseResult with
      | .error msg => some (1, [Event.loadAttempt, Event.readError msg])
      | .ok pages =>
        match getUserQuoteRun env.console 0 fuel with
        | none => none
        | some (quote, _) =>
          some (0,
            [Event.loadAttempt, Event.loadOk,
              (if matchCheck quote (loadPdfText pages) then Event.matchFound
               else Event.matchWarn),
              Event.explainRequest quote]
            ++ (explainQuote env.api).2.map Event.explainDiag
            ++ [Event.explanationOut (explainQuote env.api).1,
                Event.sentimentOut (env.sentiment quote).1 (env.sentiment quote).2
                  (classifyTone (env.sentiment quote).1),
                Event.citation, Event.finished])

/-- The advisory found/not-found log messages of the match check. -/
def isMatchEvent : Event → Bool
  | .matchFound => true
  | .matchWarn => true
  | _ => false

/-- A console stream whose first submission is whitespace-only and whose
later submissions are "hi". -/
def sampleStream : Nat → List Char :=
  fun n => if n = 0 then (" ").data else ("hi").data

/-- A fully healthy environment: credential present, file present, one
parsed page, a console that immediately supplies "hi", a successful remote
call, and a constant sentiment oracle. -/
def demoEnv : Env where
  apiKey := some (("k").data)
  fileExists := true
  parseResult := .ok [("liberty").data]
  console := fun _ => ("hi").data
  api := .success (("ok").data)
  sentiment := fun _ => (0, 0)

end LitProject

namespace LitProject

/-- C1: the orchestrator's match check returns true exactly when the
lowered quote occurs verbatim as a contiguous substring of the lowered
document text - no normalisation beyond case folding. -/
theorem matchCheck_iff_lower_substring (q d : List Char)
    (hq : q ≠ []) (ht : pyStrip q = q) :
    matchCheck q d = true ↔ ∃ s t, lowerStr d = s ++ lowerStr q ++ t := by
  unfold matchCheck
  rw [decide_eq_true_iff]
  constructor
  · rintro ⟨s, t, h⟩
    exact ⟨s, t, h.symm⟩
  · rintro ⟨s, t, h⟩
    exact ⟨s, t, h.symm⟩

/-- Witness for C1 at the concrete quote "LIBERTY" and document
"Liberty is..." from the spec. -/
theorem matchCheck_iff_lower_substring_witness :
    ("LIBERTY").data ≠ [] ∧ pyStrip (("LIBERTY").data) = ("LIBERTY").data ∧
      (matchCheck (("LIBERTY").data) (("Liberty is...").data) = true ↔
        ∃ s t, lowerStr (("Liberty is...").data)
          = s ++ lowerStr (("LIBERTY").data) ++ t) :=
  ⟨by decide, by decide,
    matchCheck_iff_lower_substring (("LIBERTY").data) (("Liberty is...").data)
      (by decide) (by decide)⟩

/-- C5: `load_pdf_text` concatenates exactly the non-empty page
extractions, each followed by one newline, in page order. -/
theorem loadPdfText_eq_flatten_nonempty (pages : List (List Char)) :
    loadPdfText pages
      = ((pages.filter (fun p => !p.isEmpty)).map (fun p => p ++ ['\n'])).flatten := by
  suffices h : ∀ acc : List Char,
      pages.foldl (fun text p => if p.isEmpty then text else text ++ p ++ ['\n']) acc
        = acc ++ ((pages.filter (fun p => !p.isEmpty)).map (fun p => p ++ ['\n'])).flatten by
    simpa [loadPdfText] using h []
  induction pages with
  | nil => intro acc; simp
  | cons p ps ih =>
    intro acc
    rw [List.foldl_cons]
    cases p with
    | nil =>
      have he : (([] : List Char)).isEmpty = true := rfl
      rw [if_pos he, ih]
      simp [List.filter_cons]
    | cons c cs =>
      have he : ¬((c :: cs).isEmpty = true) := by simp
      rw [if_neg he, ih]
      simp [List.filter_cons, List.append_assoc]

/-- C6: tone classification is a pure function of polarity with strict
thresholds: above 3/10 positive, below -3/10 negative, everything else -
including exactly ±3/10 - neutral. -/
theorem classifyTone_thresholds :
    (∀ p : ℚ, 3 / 10 < p → classifyTone p = .positive) ∧
    (∀ p : ℚ, p < -(3 / 10) → classifyTone p = .negative) ∧
    (∀ p : ℚ, -(3 / 10) ≤ p → p ≤ 3 / 10 → classifyTone p = .neutral) ∧
    classifyTone (3 / 10) = .neutral ∧ classifyTone (-(3 / 10)) = .neutral := by
  refine ⟨?_, ?_, ?_, ?_, ?_⟩
  · intro p hp
    simp [classifyTone, hp]
  · intro p hp
    have h1 : ¬(3 / 10 < p) := by linarith
    simp [classifyTone, h1, hp]
  · intro p h1 h2
    have h3 : ¬(3 / 10 < p) := by linarith
    have h4 : ¬(p < -(3 / 10)) := by linarith
    simp [classifyTone, h3, h4]
  · norm_num [classifyTone]
  · norm_num [classifyTone]

/-- Witness for C6 at the concrete polarities from the spec. -/
theorem classifyTone_thresholds_witness :
    classifyTone (1 / 2) = .positive ∧ classifyTone (-(1 / 2)) = .negative ∧
      classifyTone 0 = .neutral :=
  ⟨classifyTone_thresholds.1 (1 / 2) (by norm_num),
    classifyTone_thresholds.2.1 (-(1 / 2)) (by norm_num),
    classifyTone_thresholds.2.2.1 0 (by norm_num) (by norm_num)⟩

/-- The head surviving a `dropWhile p` fails `p`. -/
theorem head_dropWhile_false {α : Type} (p : α → Bool) :
    ∀ (l : List α) (a : α), (l.dropWhile p).head? = some a → p a = false := by
  intro l
  induction l with
  | nil => intro a h; cases h
  | cons b t ih =>
    intro a h
    by_cases hb : p b
    · rw [List.dropWhile_cons, if_pos hb] at h
      exact ih a h
    · rw [List.dropWhile_cons, if_neg hb] at h
      injection h with h
      subst h
      simpa using hb

/-- A list whose head (if any) fails `p` is unchanged by `dropWhile p`. -/
theorem dropWhile_eq_self_of_head {α : Type} (p : α → Bool) (l : List α)
    (h : ∀ a, l.head? = some a → p a = false) : l.dropWhile p = l := by
  cases l with
  | nil => rfl
  | cons a t =>
    rw [List.dropWhile_cons, if_neg]
    simp [h a rfl]

/-- Python `strip` is idempotent. -/
theorem pyStrip_idem (s : List Char) : pyStrip (pyStrip s) = pyStrip s := by
  have hhead : ∀ a,
      (List.rdropWhile pyIsSpace (List.dropWhile pyIsSpace s)).head? = some a →
        pyIsSpace a = false := by
    intro a ha
    obtain ⟨t, ht⟩ :=
      List.rdropWhile_prefix pyIsSpace (List.dropWhile pyIsSpace s)
    apply head_dropWhile_false pyIsSpace s a
    cases hv : List.rdropWhile pyIsSpace (List.dropWhile pyIsSpace s) with
    | nil => rw [hv] at ha; cases ha
    | cons b rest =>
      rw [hv] at ha ht
      injection ha with hba
      rw [← ht]
      subst hba
      rfl
  unfold pyStrip
  rw [dropWhile_eq_self_of_head pyIsSpace _ hhead, List.rdropWhile_idempotent]

/-- General accepted-run lemma for the quote-collection loop. -/
theorem getUserQuoteRun_some (ins : Nat → List Char) :
    ∀ fuel s q d, getUserQuoteRun ins s fuel = some (q, d) →
      s ≤ d ∧ q = pyStrip (ins d) ∧ q ≠ [] ∧
        ∀ j, s ≤ j → j < d → pyStrip (ins j) = [] := by
  intro fuel
  induction fuel with
  | zero => intro s q d h; cases h
  | succ fuel ih =>
    intro s q d h
    rw [getUserQuoteRun] at h
    by_cases he : (pyStrip (ins s)).isEmpty
    · rw [if_pos he] at h
      obtain ⟨h1, h2, h3, h4⟩ := ih (s + 1) q d h
      refine ⟨by omega, h2, h3, ?_⟩
      intro j hj1 hj2
      rcases Nat.eq_or_lt_of_le hj1 with hj | hj
      · rw [← hj]
        exact List.isEmpty_iff.mp he
      · exact h4 j (by omega) hj2
    · rw [if_neg he] at h
      injection h with h
      injection h with hq hd
      subst hq; subst hd
      refine ⟨Nat.le_refl _, rfl, ?_, ?_⟩
      · intro hnil
        exact he (by simp [hnil])
      · intro j hj1 hj2
        omega

/-- C2: whenever `get_user_quote` returns, its value is the strip of the
first submission whose strip is non-empty; the value is non-empty and
already whitespace-trimmed, so every downstream component receives a
non-empty trimmed quote. -/
theorem getUserQuote_first_nonempty (ins : Nat → List Char) (fuel : Nat)
    (q : List Char) (d : Nat) (h : getUserQuoteRun ins 0 fuel = some (q, d)) :
    q = pyStrip (ins d) ∧ q ≠ [] ∧ pyStrip q = q ∧
      ∀ j, j < d → pyStrip (ins j) = [] := by
  obtain ⟨_, h2, h3, h4⟩ := getUserQuoteRun_some ins fuel 0 q d h
  refine ⟨h2, h3, ?_, fun j hj => h4 j (Nat.zero_le j) hj⟩
  rw [h2, pyStrip_idem]

/-- Witness for C2 on `sampleStream`: one rejected blank submission, then
the accepted trimmed quote "hi". -/
theorem getUserQuote_first_nonempty_witness :
    ("hi").data = pyStrip (sampleStream 1) ∧ ("hi").data ≠ [] ∧
      pyStrip (("hi").data) = ("hi").data ∧
      ∀ j, j < 1 → pyStrip (sampleStream j) = [] :=
  getUserQuote_first_nonempty sampleStream 2 (("hi").data) 1 (by rfl)

/-- Skipping lemma: after `k` whitespace-only submissions a non-empty one
is accepted at depth `k`. -/
theorem getUserQuoteRun_skip (ins : Nat → List Char) :
    ∀ k s, (∀ j, j < k → pyStrip (ins (s + j)) = []) →
      pyStrip (ins (s + k)) ≠ [] →
      getUserQuoteRun ins s (k + 1) = some (pyStrip (ins (s + k)), s + k) := by
  intro k
  induction k with
  | zero =>
    intro s _ hk
    rw [getUserQuoteRun, if_neg]
    · simp
    · simpa using hk
  | succ k ih =>
    intro s hlt hk
    rw [getUserQuoteRun, if_pos]
    · have h0 : ∀ j, j < k → pyStrip (ins (s + 1 + j)) = [] := by
        intro j hj
        have := hlt (j + 1) (by omega)
        simpa [Nat.add_assoc, Nat.add_comm 1 j] using this
      have h1 : pyStrip (ins (s + 1 + k)) ≠ [] := by
        have hsk : s + 1 + k = s + (k + 1) := by omega
        rw [hsk]
        exact hk
      have := ih (s + 1) h0 h1
      rw [this]
      have hsk : s + 1 + k = s + (k + 1) := by omega
      rw [hsk]
    · have := hlt 0 (by omega)
      simp only [Nat.add_zero] at this
      simp [this, List.isEmpty_iff]

/-- On an all-blank stream the loop never returns, whatever the fuel. -/
theorem getUserQuoteRun_allBlank (ins : Nat → List Char)
    (hall : ∀ i, pyStrip (ins i) = []) :
    ∀ fuel s, getUserQuoteRun ins s fuel = none := by
  intro fuel
  induction fuel with
  | zero => intro s; rfl
  | succ fuel ih =>
    intro s
    rw [getUserQuoteRun, if_pos]
    · exact ih (s + 1)
    · simp [hall s, List.isEmpty_iff]

/-- C10: if some submission has a non-empty strip then the loop returns
(with fuel one more than the index), and its recursion depth equals the
number of blank submissions before the first good one; on an all-blank
stream it never returns. -/
theorem getUserQuote_termination (ins : Nat → List Char) :
    (∀ k, (∀ j, j < k → pyStrip (ins j) = []) → pyStrip (ins k) ≠ [] →
        getUserQuoteRun ins 0 (k + 1) = some (pyStrip (ins k), k)) ∧
    ((∀ i, pyStrip (ins i) = []) → ∀ fuel s, getUserQuoteRun ins s fuel = none) := by
  constructor
  · intro k hlt hk
    have := getUserQuoteRun_skip ins k 0 (by simpa using hlt) (by simpa using hk)
    simpa using this
  · intro hall
    exact getUserQuoteRun_allBlank ins hall

/-- Witness for C10 on `sampleStream`: the blank first submission is
skipped and the loop returns at depth 1. -/
theorem getUserQuote_termination_witness :
    getUserQuoteRun sampleStream 0 2 = some (pyStrip (sampleStream 1), 1) :=
  (getUserQuote_termination sampleStream).1 1
    (by intro j hj; interval_cases j; rfl) (by decide)

/-- C3: each remote-failure class maps to its own fallback string, the
three fallbacks are pairwise distinct, and the 401-specific diagnostic is
logged exactly for status 401. -/
theorem explainQuote_failure_classes :
    (∀ s : Nat, (explainQuote (.apiStatusError s)).1 = apiErrorFallback) ∧
    (∀ s : Nat,
        ExplainEvent.authDiag401 ∈ (explainQuote (.apiStatusError s)).2 ↔ s = 401) ∧
    (explainQuote .timeoutError).1 = timeoutFallback ∧
    (explainQuote .otherError).1 = unexpectedFallback ∧
    apiErrorFallback ≠ timeoutFallback ∧
    apiErrorFallback ≠ unexpectedFallback ∧
    timeoutFallback ≠ unexpectedFallback := by
  refine ⟨fun s => rfl, ?_, rfl, rfl, by decide, by decide, by decide⟩
  intro s
  by_cases hs : s = 401
  · subst hs
    simp [explainQuote]
  · simp [explainQuote, hs]

/-- C4: the explanation requester is a total function of the call outcome:
every failure is converted into one of the three fallback strings, and on
success it returns exactly the whitespace-trimmed generated text. -/
theorem explainQuote_never_raises (o : ApiOutcome) :
    ((∀ t, o ≠ .success t) →
        (explainQuote o).1 = apiErrorFallback ∨
          (explainQuote o).1 = timeoutFallback ∨
          (explainQuote o).1 = unexpectedFallback) ∧
    (∀ t, o = .success t → (explainQuote o).1 = pyStrip t) := by
  cases o with
  | success text =>
    refine ⟨fun h => absurd rfl (h text), fun t ht => ?_⟩
    cases ht
    rfl
  | apiStatusError s => exact ⟨fun _ => Or.inl rfl, fun t ht => by cases ht⟩
  | timeoutError => exact ⟨fun _ => Or.inr (Or.inl rfl), fun t ht => by cases ht⟩
  | otherError => exact ⟨fun _ => Or.inr (Or.inr rfl), fun t ht => by cases ht⟩

/-- Witness for C4 at a forced timeout and at a concrete success. -/
theorem explainQuote_never_raises_witness :
    ((explainQuote .timeoutError).1 = apiErrorFallback ∨
        (explainQuote .timeoutError).1 = timeoutFallback ∨
        (explainQuote .timeoutError).1 = unexpectedFallback) ∧
      (explainQuote (.success ((" ok ").data))).1 = pyStrip ((" ok ").data) :=
  ⟨(explainQuote_never_raises .timeoutError).1 (fun t ht => by cases ht),
    (explainQuote_never_raises (.success ((" ok ").data))).2 ((" ok ").data) rfl⟩

/-- C7: missing/empty credential aborts with exit code 1 before any other
work; a missing file or a parse error aborts with exit code 1 and no
partial result; otherwise, once the console yields a quote, the run
finishes with exit code 0 having printed the citation. -/
theorem runProgram_exit_codes (env : Env) (fuel : Nat) :
    ((env.apiKey = none ∨ env.apiKey = some []) →
        runProgram env fuel = some (1, [Event.keyError])) ∧
    (∀ key, env.apiKey = some key → key ≠ [] → env.fileExists = false →
        runProgram env fuel = some (1, [Event.fileError])) ∧
    (∀ key msg, env.apiKey = some key → key ≠ [] → env.fileExists = true →
        env.parseResult = .error msg →
        runProgram env fuel = some (1, [Event.loadAttempt, Event.readError msg])) ∧
    (∀ key pages q d, env.apiKey = some key → key ≠ [] → env.fileExists = true →
        env.parseResult = .ok pages →
        getUserQuoteRun env.console 0 fuel = some (q, d) →
        ∃ tr, runProgram env fuel = some (0, tr) ∧ Event.citation ∈ tr) := by
  refine ⟨?_, ?_, ?_, ?_⟩
  · rintro (h | h) <;> simp [runProgram, h]
  · intro key hkey hne hfe
    have hk : key.isEmpty = false := by
      cases hkb : key.isEmpty
      · rfl
      · exact absurd (List.isEmpty_iff.mp hkb) hne
    simp [runProgram, hkey, hk, hfe]
  · intro key msg hkey hne hfe hpr
    have hk : key.isEmpty = false := by
      cases hkb : key.isEmpty
      · rfl
      · exact absurd (List.isEmpty_iff.mp hkb) hne
    simp [runProgram, hkey, hk, hfe, hpr]
  · intro key pages q d hkey hne hfe hpr hrun
    have hk : key.isEmpty = false := by
      cases hkb : key.isEmpty
      · rfl
      · exact absurd (List.isEmpty_iff.mp hkb) hne
    refine ⟨[Event.loadAttempt, Event.loadOk,
        (if matchCheck q (loadPdfText pages) then Event.matchFound
         else Event.matchWarn),
        Event.explainRequest q]
      ++ (explainQuote env.api).2.map Event.explainDiag
      ++ [Event.explanationOut (explainQuote env.api).1,
          Event.sentimentOut (env.sentiment q).1 (env.sentiment q).2
            (classifyTone (env.sentiment q).1),
          Event.citation, Event.finished], ?_, ?_⟩
    · simp [runProgram, hkey, hk, hfe, hpr, hrun]
    · simp

/-- Witness for C7: in the healthy `demoEnv` the run exits normally with
the citation printed. -/
theorem runProgram_exit_codes_witness :
    ∃ tr, runProgram demoEnv 1 = some (0, tr) ∧ Event.citation ∈ tr :=
  (runProgram_exit_codes demoEnv 1).2.2.2 (("k").data) [("liberty").data]
    (("hi").data) 0 rfl (by decide) rfl rfl (by rfl)

/-- C8: the match check never alters downstream behaviour: two runs that
differ only in the parsed document pages produce the same exit code and
the same trace once the advisory found/not-found message is removed - in
particular the same explanation request, explanation output, sentiment
output and citation. -/
theorem matchCheck_noninterference (key : Option (List Char)) (fe : Bool)
    (console : Nat → List Char) (api : ApiOutcome)
    (sentiment : List Char → ℚ × ℚ) (ps1 ps2 : List (List Char)) (fuel : Nat) :
    Option.map (fun r => (r.1, r.2.filter (fun ev => !isMatchEvent ev)))
        (runProgram ⟨key, fe, .ok ps1, console, api, sentiment⟩ fuel)
      = Option.map (fun r => (r.1, r.2.filter (fun ev => !isMatchEvent ev)))
        (runProgram ⟨key, fe, .ok ps2, console, api, sentiment⟩ fuel) := by
  cases key with
  | none => rfl
  | some k =>
    cases hk : k.isEmpty with
    | true => simp [runProgram, hk]
    | false =>
      cases fe with
      | false => simp [runProgram, hk]
      | true =>
        cases hrun : getUserQuoteRun console 0 fuel with
        | none => simp [runProgram, hk, hrun]
        | some pr =>
          obtain ⟨q, d⟩ := pr
          cases hm1 : matchCheck q (loadPdfText ps1) <;>
            cases hm2 : matchCheck q (loadPdfText ps2) <;>
              simp [runProgram, hk, hrun, hm1, hm2, isMatchEvent, List.filter_append]

end LitProject
